import Mathlib

/-!
Verification development for the mvsim core subsystems:

* the tire-friction model of `EllipseCurveMethod.cpp` (`miH`, `miS`,
  `evaluate_friction` with its decoupled stages), and
* the 2.5D shape reducer of `Shape2p5.cpp` (occupancy grid, scan-line
  flood fill, contour scan, merge and rasterization entry points).

C++ `double`/`float` arithmetic is modelled by exact real arithmetic on `ℝ`.
Mutation of caller-owned state (the wheel's angular velocity, the grid
cells, the accumulated z-extent) is modelled by explicit state passing:
functions return the updated state.  A C++ `throw`/failed `ASSERT_` is
modelled by `Except.error`.
-/

/-! ## Tire friction model (EllipseCurveMethod.cpp) -/

/-- Heaviside function `miH` (EllipseCurveMethod.cpp line 55):
returns 1 when `x > x0`, else 0. -/
noncomputable def miH (x x0 : ℝ) : ℝ := if x > x0 then 1 else 0

/-- The function `miS` (EllipseCurveMethod.cpp line 63), written in the
source as `x * miH(x0, std::abs(x)) + x0 * miH(std::abs(x), x0)`. -/
noncomputable def miS (x x0 : ℝ) : ℝ := x * miH x0 |x| + x0 * miH |x| x0

/-- Two-argument arctangent with the C `atan2(y, x)` sign conventions;
in particular `atan2 0 0 = 0`. -/
noncomputable def atan2 (y x : ℝ) : ℝ :=
  if 0 < x then Real.arctan (y / x)
  else if x < 0 ∧ 0 ≤ y then Real.arctan (y / x) + Real.pi
  else if x < 0 ∧ y < 0 then Real.arctan (y / x) - Real.pi
  else if x = 0 ∧ 0 < y then Real.pi / 2
  else if x = 0 ∧ y < 0 then -(Real.pi / 2)
  else 0

/-- Friction model coefficients, in the order of the constructor
initializer list `CA_(8), Caf_(8.5), Cs_(7.5), ss_(0.1), Cafs_(0.5),
Csaf_(0.5)` (EllipseCurveMethod.cpp line 41). -/
structure Params where
  CA : ℝ
  Caf : ℝ
  Cs : ℝ
  ss : ℝ
  Cafs : ℝ
  Csaf : ℝ

/-- The default coefficients from the constructor initializer list. -/
noncomputable def defaultParams : Params := ⟨8, 8.5, 7.5, 0.1, 0.5, 0.5⟩

/-- One `evaluate_friction` call's inputs: the wheel index, the four wheel
positions (`getWheelInfo(i)`, only indices 0..3 are consulted), the chassis
center of mass, mass, gravity, the vehicle-local velocity `(vx, vy, omega)`,
the local linear acceleration `(ax, ay)`, the current wheel's pose and spin
state (`yaw`, `phi`, `wOld` = `getW()`, `diameter`, `Iyy`), the drive torque
and the timestep.  Field order: wheelIndex, wheels, com, mass, gravity,
vx, vy, omega, ax, ay, yaw, phi, wOld, diameter, Iyy, motorTorque, dt. -/
structure FInput where
  wheelIndex : ℕ
  wheels : ℕ → ℝ × ℝ
  com : ℝ × ℝ
  mass : ℝ
  gravity : ℝ
  vx : ℝ
  vy : ℝ
  omega : ℝ
  ax : ℝ
  ay : ℝ
  yaw : ℝ
  phi : ℝ
  wOld : ℝ
  diameter : ℝ
  Iyy : ℝ
  motorTorque : ℝ
  dt : ℝ

/-- Provisional center-of-gravity height, hard-coded as `h = 0.40` in the
source (line 88). -/
noncomputable def hCG : ℝ := 0.40

/-- Saturation reference for the sideslip angle, the local constant
`afs = 5.0 * M_PI / 180.0` (line 78). -/
noncomputable def afs : ℝ := 5 * Real.pi / 180

/-- Wheel position relative to the chassis center of mass
(`pos[i]`, lines 93-99). -/
noncomputable def wheelRelPos (inp : FInput) (i : ℕ) : ℝ × ℝ :=
  ((inp.wheels i).1 - inp.com.1, (inp.wheels i).2 - inp.com.2)

/-- `a1 = |pos[3].x|` (line 101). -/
noncomputable def a1Of (inp : FInput) : ℝ := |(wheelRelPos inp 3).1|

/-- `a2 = |pos[0].x|` (line 102). -/
noncomputable def a2Of (inp : FInput) : ℝ := |(wheelRelPos inp 0).1|

/-- Wheelbase `l = a1 + a2` (line 103). -/
noncomputable def lOf (inp : FInput) : ℝ := a1Of inp + a2Of inp

/-- Front axle width `Axf = |pos[2].y| + |pos[3].y|` (line 104). -/
noncomputable def AxfOf (inp : FInput) : ℝ :=
  |(wheelRelPos inp 2).2| + |(wheelRelPos inp 3).2|

/-- Rear axle width `Axr = |pos[0].y| + |pos[1].y|` (line 105). -/
noncomputable def AxrOf (inp : FInput) : ℝ :=
  |(wheelRelPos inp 0).2| + |(wheelRelPos inp 1).2|

/-- Vertical load for wheel 3 (front-right), lines 119-123. -/
noncomputable def Fz3 (inp : FInput) : ℝ :=
  (inp.mass / (lOf inp * AxfOf inp * inp.gravity)) *
    (a2Of inp * inp.gravity - hCG * (inp.ax - inp.omega * inp.vy)) *
    (|(wheelRelPos inp 1).2| * inp.gravity - hCG * (inp.ay + inp.omega * inp.vx))

/-- Vertical load for wheel 2 (front-left), lines 124-128. -/
noncomputable def Fz2 (inp : FInput) : ℝ :=
  (inp.mass / (lOf inp * AxfOf inp * inp.gravity)) *
    (a2Of inp * inp.gravity - hCG * (inp.ax - inp.omega * inp.vy)) *
    (|(wheelRelPos inp 0).2| * inp.gravity + hCG * (inp.ay + inp.omega * inp.vx))

/-- Vertical load for wheel 1 (rear-right), lines 129-133. -/
noncomputable def Fz1 (inp : FInput) : ℝ :=
  (inp.mass / (lOf inp * AxrOf inp * inp.gravity)) *
    (a1Of inp * inp.gravity + hCG * (inp.ax - inp.omega * inp.vy)) *
    (|(wheelRelPos inp 3).2| * inp.gravity - hCG * (inp.ay + inp.omega * inp.vx))

/-- Vertical load for wheel 0 (rear-left), lines 134-138. -/
noncomputable def Fz0 (inp : FInput) : ℝ :=
  (inp.mass / (lOf inp * AxrOf inp * inp.gravity)) *
    (a1Of inp * inp.gravity + hCG * (inp.ax - inp.omega * inp.vy)) *
    (|(wheelRelPos inp 2).2| * inp.gravity + hCG * (inp.ay + inp.omega * inp.vx))

/-- The vertical load selected by the wheel-index branch chain
(lines 119-143); 0 as a junk value outside 0..3 (the full pipeline
`evaluate_friction` instead raises `invalidWheelIndex` there). -/
noncomputable def FzOf (inp : FInput) : ℝ :=
  if inp.wheelIndex = 3 then Fz3 inp
  else if inp.wheelIndex = 2 then Fz2 inp
  else if inp.wheelIndex = 1 then Fz1 inp
  else if inp.wheelIndex = 0 then Fz0 inp
  else 0

/-- `double max_friction = Fz;` (line 145): the computed vertical load is
used directly as the available friction, with no clamping. -/
noncomputable def max_friction (Fz : ℝ) : ℝ := Fz

/-- Contact-point longitudinal velocity `vxT` (line 150).  The source
writes `pos.y`/`pos.x`; the wheel whose force is being evaluated is
intended, so the current wheel's relative position is used. -/
noncomputable def vxTOf (inp : FInput) : ℝ :=
  (inp.vx - inp.omega * (wheelRelPos inp inp.wheelIndex).2) * Real.cos inp.phi +
    (inp.vy + inp.omega * (wheelRelPos inp inp.wheelIndex).1) * Real.sin inp.phi

/-- Longitudinal slip ratio (lines 156-160).  In IEEE arithmetic the
source expression produces `NaN` exactly when numerator and denominator
are both zero, and the subsequent `if (std::isnan(s)) s = 0;` clamps that
case to zero; the conditional below reproduces this. -/
noncomputable def slipRatio (wr vxT : ℝ) : ℝ :=
  let num := wr - vxT
  let den := wr * miH wr vxT + vxT * miH vxT wr
  if num = 0 ∧ den = 0 then 0 else num / den

/-- The slip ratio of the current input:
`s = (R*w - vxT) / (R*w*miH(R*w, vxT) + vxT*miH(vxT, R*w))`. -/
noncomputable def slipOf (inp : FInput) : ℝ :=
  slipRatio (inp.diameter / 2 * inp.wOld) (vxTOf inp)

/-- Sideslip angle `af` (line 165); `delta` is `input.wheel.getPhi()`
(line 83). -/
noncomputable def afOf (inp : FInput) : ℝ :=
  atan2 (inp.vy + (wheelRelPos inp inp.wheelIndex).1 * inp.omega)
      (inp.vx - (wheelRelPos inp inp.wheelIndex).2 * inp.omega) -
    inp.phi

/-- Combined longitudinal friction (lines 169-170). -/
noncomputable def wheelLongFriction (P : Params) (inp : FInput) (Fz : ℝ) : ℝ :=
  max_friction Fz * P.Cs * miS (slipOf inp) P.ss *
    Real.sqrt (1 - P.Csaf * (miS (afOf inp) afs / afs) ^ 2)

/-- Combined lateral friction (lines 174-175). -/
noncomputable def wheelLatFriction (P : Params) (inp : FInput) (Fz : ℝ) : ℝ :=
  -max_friction Fz * P.Caf * miS (afOf inp) afs *
    Real.sqrt (1 - P.Cafs * (miS (slipOf inp) P.ss / P.ss) ^ 2)

/-- The wheel's angular velocity after the explicit Euler step
(lines 177-181): `w + ((T / Iyy) - R*Flong/Iyy) * dt`. -/
noncomputable def newWOf (P : Params) (inp : FInput) (Fz : ℝ) : ℝ :=
  inp.wOld +
    (inp.motorTorque / inp.Iyy -
        inp.diameter / 2 * wheelLongFriction P inp Fz / inp.Iyy) *
      inp.dt

/-- Stages 2-8 of `evaluate_friction`, shared by the four wheel-index
branches: the resulting force rotated into the vehicle frame by the
wheel yaw (lines 183-190), paired with the updated angular velocity. -/
noncomputable def frictionTail (P : Params) (inp : FInput) (Fz : ℝ) :
    (ℝ × ℝ) × ℝ :=
  ((Real.cos inp.yaw * wheelLongFriction P inp Fz -
      Real.sin inp.yaw * wheelLatFriction P inp Fz,
    Real.sin inp.yaw * wheelLongFriction P inp Fz +
      Real.cos inp.yaw * wheelLatFriction P inp Fz),
   newWOf P inp Fz)

/-- Failure modes of the friction model: a failed `ASSERT_` on the axle
widths (lines 106-107) or the `throw` on an unrecognized wheel index
(lines 139-143). -/
inductive FrictionError where
  | assertionFailed
  | invalidWheelIndex
  deriving DecidableEq

/-- `EllipseCurveMethod::evaluate_friction`: asserts the axle widths are
positive, dispatches the vertical-load formula over the wheel index
(throwing on an unrecognized index), and runs the shared tail.  The
returned pair is (vehicle-frame force, updated wheel angular velocity);
the latter models the in-place `setW` side effect. -/
noncomputable def evaluate_friction (P : Params) (inp : FInput) :
    Except FrictionError ((ℝ × ℝ) × ℝ) :=
  if 0 < AxfOf inp then
    if 0 < AxrOf inp then
      if inp.wheelIndex = 3 then .ok (frictionTail P inp (Fz3 inp))
      else if inp.wheelIndex = 2 then .ok (frictionTail P inp (Fz2 inp))
      else if inp.wheelIndex = 1 then .ok (frictionTail P inp (Fz1 inp))
      else if inp.wheelIndex = 0 then .ok (frictionTail P inp (Fz0 inp))
      else .error .invalidWheelIndex
    else .error .assertionFailed
  else .error .assertionFailed

/-! ## Shape reducer (Shape2p5.cpp) -/

/-- The four cell states of the occupancy grid (Shape2p5.cpp lines 37-40). -/
inductive CellState where
  | undefined
  | occupied
  | free
  | visited
  deriving DecidableEq

/-- The intermediate occupancy grid (`mrpt::containers::CDynamicGrid`):
origin, resolution, dimensions and the row-major cell array.  `cells`
holds cell `(cx, cy)` at index `cy * nx + cx`. -/
structure Grid where
  xmin : ℝ
  ymin : ℝ
  res : ℝ
  nx : ℕ
  ny : ℕ
  cells : List CellState

/-- `cellByIndex`: bounds-checked cell access; `none` models the null
pointer returned for indices outside the grid. -/
def cellAt (g : Grid) (x y : ℤ) : Option CellState :=
  if 0 ≤ x ∧ x < (g.nx : ℤ) ∧ 0 ≤ y ∧ y < (g.ny : ℤ) then
    g.cells[y.toNat * g.nx + x.toNat]?
  else none

/-- Bounds-checked cell write (`*c = value;` guarded by the index and
null checks of the `Set` lambda and of the rasterization code). -/
def setCell (g : Grid) (x y : ℤ) (c : CellState) : Grid :=
  if 0 ≤ x ∧ x < (g.nx : ℤ) ∧ 0 ≤ y ∧ y < (g.ny : ℤ) then
    { g with cells := g.cells.set (y.toNat * g.nx + x.toNat) c }
  else g

/-- The `Inside` lambda of `internalGridFloodFill` (lines 231-238): the
cell exists and is `Undefined`. -/
def inside (g : Grid) (x y : ℤ) : Bool :=
  match cellAt g x y with
  | some CellState.undefined => true
  | _ => false

/-- The leftward extension loop `while (Inside(lx-1, y)) { Set(lx-1, y);
lx--; }` (lines 310-315), returning the updated grid and the final `lx`.
The fuel argument strictly exceeds the grid width, so the loop always
ends by the `Inside` test as in the source. -/
def fillLeft : ℕ → Grid → ℤ → ℤ → Grid × ℤ
  | 0, g, lx, _ => (g, lx)
  | fuel + 1, g, lx, y =>
      if inside g (lx - 1) y then fillLeft fuel (setCell g (lx - 1) y CellState.free) (lx - 1) y
      else (g, lx)

/-- The rightward extension loop `while (Inside(x, y)) { Set(x, y); x++; }`
(lines 316-320), returning the updated grid and the final `x`. -/
def fillRight : ℕ → Grid → ℤ → ℤ → Grid × ℤ
  | 0, g, x, _ => (g, x)
  | fuel + 1, g, x, y =>
      if inside g x y then fillRight fuel (setCell g x y CellState.free) (x + 1) y
      else (g, x)

/-- One step of the `lambdaScan` row scan (lines 289-303): seeds the
queue at the start of each contiguous run of `Inside` cells. -/
def scanGo : ℕ → Grid → ℤ → ℤ → Bool → List (ℤ × ℤ) → List (ℤ × ℤ)
  | 0, _, _, _, _, q => q
  | n + 1, g, x, y, spanAdded, q =>
      if inside g x y then
        if spanAdded then scanGo n g (x + 1) y true q
        else scanGo n g (x + 1) y true (q ++ [(x, y)])
      else scanGo n g (x + 1) y false q

/-- `lambdaScan(lx, rx, y)`: scan columns `lx..rx` of row `y`, appending
new seeds to the FIFO queue. -/
def scanRow (g : Grid) (lx rx y : ℤ) (q : List (ℤ × ℤ)) : List (ℤ × ℤ) :=
  scanGo (rx + 1 - lx).toNat g lx y false q

/-- The queue-driven main loop of the scan-line seed fill
(lines 305-323): pop a seed, extend left and right along its row marking
cells `Free`, then scan the rows above and below for new seeds.  The
fuel strictly exceeds the number of queue operations any run can
perform, so every run ends with an empty queue as in the source. -/
def floodLoop : ℕ → Grid → List (ℤ × ℤ) → Grid
  | 0, g, _ => g
  | _ + 1, g, [] => g
  | fuel + 1, g, (x, y) :: rest =>
      let L := fillLeft (g.nx + 2) g x y
      let R := fillRight (g.nx + 2) L.1 x y
      let q1 := scanRow R.1 L.2 (R.2 - 1) (y + 1) rest
      let q2 := scanRow R.1 L.2 (R.2 - 1) (y - 1) q1
      floodLoop fuel R.1 q2

/-- `Shape2p5::internalGridFloodFill` (lines 219-324): if the corner seed
cell `(0, 0)` is not `Inside` (i.e. not `Undefined`), return with the
grid untouched (`if (!Inside(x0, y0)) return;`); otherwise run the
scan-line fill from the seed. -/
def floodFill (g : Grid) : Grid :=
  if inside g 0 0 then floodLoop (4 * g.nx * g.ny + 4) g [(0, 0)] else g

/-- Failure modes of the shape reducer: the `ASSERT_(cy < ny)` of the
first-occupied-cell scan (reached exactly when the grid holds no
occupied cell), the `ASSERT_` on an empty merge argument, and the
`ASSERT_(c)` of `buildAddPoint`. -/
inductive ShapeErr where
  | emptyShape
  | invalidShape
  | assertionFailed
  deriving DecidableEq

/-- The row-major scan for the first `CELL_OCCUPIED` cell
(lines 354-365); `ASSERT_(cy < ny)` fails when the scan exhausts the
grid, which is the empty-shape failure. -/
def firstOccGo (g : Grid) (cx cy : ℕ) : Except ShapeErr (ℕ × ℕ) :=
  if cellAt g cx cy = some CellState.occupied then .ok (cx, cy)
  else if _h1 : cx + 1 < g.nx then firstOccGo g (cx + 1) cy
  else if _h2 : cy + 1 < g.ny then firstOccGo g 0 (cy + 1)
  else .error .emptyShape
  termination_by (g.ny - cy, g.nx - cx)
  decreasing_by
  · apply Prod.Lex.right
    omega
  · apply Prod.Lex.left
    omega

/-- Start of the scan at cell `(0, 0)`. -/
def firstOccupied (g : Grid) : Except ShapeErr (ℕ × ℕ) := firstOccGo g 0 0

/-- `lambdaCellIsBorder` (lines 336-352): an `Occupied` cell with a
`Free` 4-neighbor. -/
def cellIsBorder (g : Grid) (cx cy : ℤ) : Bool :=
  match cellAt g cx cy with
  | some CellState.occupied =>
      (match cellAt g cx (cy - 1) with | some CellState.free => true | _ => false) ||
      (match cellAt g cx (cy + 1) with | some CellState.free => true | _ => false) ||
      (match cellAt g (cx + 1) cy with | some CellState.free => true | _ => false) ||
      (match cellAt g (cx - 1) cy with | some CellState.free => true | _ => false)
  | _ => false

/-- `idx2x`: the x coordinate of a cell center. -/
noncomputable def idx2x (g : Grid) (cx : ℤ) : ℝ := g.xmin + ((cx : ℝ) + 1 / 2) * g.res

/-- `idx2y`: the y coordinate of a cell center. -/
noncomputable def idx2y (g : Grid) (cy : ℤ) : ℝ := g.ymin + ((cy : ℝ) + 1 / 2) * g.res

/-- The 8-neighborhood search order of the boundary walk: `ix` outer
from -1 to 1, `iy` inner from -1 to 1 (lines 381-394). -/
def neighborOffsets : List (ℤ × ℤ) :=
  [(-1, -1), (-1, 0), (-1, 1), (0, -1), (0, 0), (0, 1), (1, -1), (1, 0), (1, 1)]

/-- The boundary walk of `internalGridContour` (lines 371-396): mark the
current cell `Visited`, record its center, move to the first border cell
of the 8-neighborhood, stop when none exists.  Each iteration turns one
`Occupied` cell into `Visited`, so the fuel (one more than the cell
count) outlasts any walk. -/
noncomputable def traceGo : ℕ → Grid → ℤ → ℤ → List (ℝ × ℝ) → List (ℝ × ℝ)
  | 0, _, _, _, acc => acc.reverse
  | fuel + 1, g, cx, cy, acc =>
      let g1 := setCell g cx cy CellState.visited
      let acc1 := (idx2x g cx, idx2y g cy) :: acc
      match neighborOffsets.find? (fun o => cellIsBorder g1 (cx + o.1) (cy + o.2)) with
      | some o => traceGo fuel g1 (cx + o.1) (cy + o.2) acc1
      | none => acc1.reverse

/-- `Shape2p5::internalGridContour` (lines 327-399): locate the first
occupied cell (failing on an all-empty grid), then walk the boundary. -/
noncomputable def internalGridContour (g : Grid) : Except ShapeErr (List (ℝ × ℝ)) :=
  (firstOccupied g).map fun c => traceGo (g.cells.length + 1) g (c.1 : ℤ) (c.2 : ℤ) []

/-- The fixed placeholder polygon stored by `computeShape`
(lines 156-160). -/
noncomputable def placeholderContour : List (ℝ × ℝ) :=
  [(-(1 / 4), -(1 / 4)), (-(1 / 4), 1 / 4), (1 / 4, 1 / 4), (1 / 4, -(1 / 4))]

/-- `Shape2p5::computeShape` (lines 137-208): flood-fill the grid, trace
the raw contour (propagating its failure), and store the hard-coded
placeholder quad as the resulting contour. -/
noncomputable def computeShape (g : Grid) : Except ShapeErr (List (ℝ × ℝ)) :=
  (internalGridContour (floodFill g)).map fun _ => placeholderContour

/-- A 2.5D shape: planar contour plus vertical extent. -/
structure Shape where
  contour : List (ℝ × ℝ)
  zMin : ℝ
  zMax : ℝ

/-- `Shape2p5::mergeWith(const Shape2p5&)` (lines 48-58): asserts that
the argument's contour is non-empty; the point-accumulation and
convex-hull recomputation that follow are compiled out (`#if 0`), so on
success the receiver is returned unchanged. -/
def mergeWith (self other : Shape) : Except ShapeErr Shape :=
  if other.contour.isEmpty then .error .invalidShape else .ok self

/-- A 3D point. -/
structure V3 where
  x : ℝ
  y : ℝ
  z : ℝ

/-- A triangle, `mrpt::opengl::TTriangle`. -/
structure Tri where
  a : V3
  b : V3
  c : V3

/-- Truncation toward zero, the behavior of the C++ `static_cast<int>`
used by the grid's `x2idx`/`y2idx`. -/
noncomputable def truncToInt (z : ℝ) : ℤ := if 0 ≤ z then ⌊z⌋ else ⌈z⌉

/-- `cellByPos` of the dynamic grid: map a metric position to cell
indices, `none` (the null pointer) when the position falls outside the
grid. -/
noncomputable def cellByPos (g : Grid) (x y : ℝ) : Option (ℕ × ℕ) :=
  let ix := truncToInt ((x - g.xmin) / g.res)
  let iy := truncToInt ((y - g.ymin) / g.res)
  if 0 ≤ ix ∧ ix < (g.nx : ℤ) ∧ 0 ≤ iy ∧ iy < (g.ny : ℤ) then
    some (ix.toNat, iy.toNat)
  else none

/-- Shape-under-construction state: the grid plus the running vertical
extent. -/
structure BuildState where
  grid : Grid
  zMin : ℝ
  zMax : ℝ

/-- `Shape2p5::buildAddPoint` (lines 98-105): widen the running z-extent,
then look up the containing cell; `ASSERT_(c)` fails for a point outside
the grid, otherwise the cell is marked `Occupied`. -/
noncomputable def buildAddPoint (st : BuildState) (p : V3) :
    Except ShapeErr BuildState :=
  let st1 : BuildState := ⟨st.grid, min st.zMin p.z, max st.zMax p.z⟩
  match cellByPos st.grid p.x p.y with
  | none => .error .assertionFailed
  | some c => .ok ⟨setCell st1.grid (c.1 : ℤ) (c.2 : ℤ) CellState.occupied,
      st1.zMin, st1.zMax⟩

/-- One edge sample of `buildAddTriangle` (lines 124-132): a sample whose
cell lookup fails (`if (!c) continue;`) leaves the state untouched;
otherwise the cell is marked `Occupied` and the z-extent widened. -/
noncomputable def triSample (st : BuildState) (p : V3) : BuildState :=
  match cellByPos st.grid p.x p.y with
  | none => st
  | some c => ⟨setCell st.grid (c.1 : ℤ) (c.2 : ℤ) CellState.occupied,
      min st.zMin p.z, max st.zMax p.z⟩

/-- The sample points of one triangle edge (lines 111-124): the edge is
walked in `nSteps = ceil(|v1 - v0| / resolution)` sub-cell steps starting
at `v0`. -/
noncomputable def edgeSamples (g : Grid) (v0 v1 : V3) : List V3 :=
  let dx := v1.x - v0.x
  let dy := v1.y - v0.y
  let dz := v1.z - v0.z
  let n : ℤ := ⌈Real.sqrt (dx ^ 2 + dy ^ 2 + dz ^ 2) / g.res⌉
  (List.range n.toNat).map fun s =>
    ⟨v0.x + (s : ℝ) * (dx / (n : ℝ)), v0.y + (s : ℝ) * (dy / (n : ℝ)),
      v0.z + (s : ℝ) * (dz / (n : ℝ))⟩

/-- All edge samples of a triangle, for the edges `a->b`, `b->c`,
`c->a` in the source's loop order. -/
noncomputable def triangleSamples (g : Grid) (t : Tri) : List V3 :=
  edgeSamples g t.a t.b ++ edgeSamples g t.b t.c ++ edgeSamples g t.c t.a

/-- `Shape2p5::buildAddTriangle` (lines 107-134): process every edge
sample in order; there is no failure path. -/
noncomputable def buildAddTriangle (st : BuildState) (t : Tri) : BuildState :=
  (triangleSamples st.grid t).foldl triSample st

/-! ## Concrete friction inputs used by witnesses and counterexamples -/

/-- Four wheels on a unit square around the origin, in the source's
index convention `[0] rear-left, [1] rear-right, [2] front-left,
[3] front-right`. -/
noncomputable def wheelsSquare : ℕ → ℝ × ℝ := fun i =>
  if i = 0 then (-1, 1)
  else if i = 1 then (-1, -1)
  else if i = 2 then (1, 1)
  else (1, -1)

/-- A stationary vehicle, wheel 0, torque 2, inertia 1, dt = 1/2. -/
noncomputable def inp0 : FInput :=
  ⟨0, wheelsSquare, (0, 0), 1, 10, 0, 0, 0, 0, 0, 0, 0, 0, 1, 1, 2, 1 / 2⟩

/-- The same vehicle with the out-of-range wheel index 4. -/
noncomputable def inp4 : FInput :=
  ⟨4, wheelsSquare, (0, 0), 1, 10, 0, 0, 0, 0, 0, 0, 0, 0, 1, 1, 2, 1 / 2⟩

/-- Wheel 3 under strong braking (`ax = 100`): the load-transfer formula
yields a negative vertical load. -/
noncomputable def inpC2 : FInput :=
  ⟨3, wheelsSquare, (0, 0), 1, 10, 0, 0, 0, 100, 0, 0, 0, 0, 1, 1, 0, 1⟩

/-! ## Friction model lemmas -/

lemma afs_pos : 0 < afs := by
  unfold afs
  positivity

lemma miS_zero (x0 : ℝ) (h : 0 < x0) : miS 0 x0 = 0 := by
  simp [miS, miH, h.not_lt]

lemma vxT_inp0 : vxTOf inp0 = 0 := by
  simp [vxTOf, wheelRelPos, inp0, wheelsSquare]

lemma slip_inp0 : slipOf inp0 = 0 := by
  unfold slipOf
  rw [vxT_inp0, show inp0.diameter / 2 * inp0.wOld = 0 by norm_num [inp0]]
  simp [slipRatio]

lemma af_inp0 : afOf inp0 = 0 := by
  simp [afOf, atan2, inp0, wheelRelPos, wheelsSquare]

lemma longF_zero_inp0 (fz : ℝ) : wheelLongFriction defaultParams inp0 fz = 0 := by
  unfold wheelLongFriction
  rw [slip_inp0, miS_zero _ (by norm_num [defaultParams])]
  ring

lemma latF_zero_inp0 (fz : ℝ) : wheelLatFriction defaultParams inp0 fz = 0 := by
  unfold wheelLatFriction
  rw [af_inp0, miS_zero _ afs_pos]
  ring

lemma Axf_inp0 : AxfOf inp0 = 2 := by
  norm_num [AxfOf, wheelRelPos, inp0, wheelsSquare]

lemma Axr_inp0 : AxrOf inp0 = 2 := by
  norm_num [AxrOf, wheelRelPos, inp0, wheelsSquare]

lemma eval_inp0 : evaluate_friction defaultParams inp0 = .ok ((0, 0), 1) := by
  unfold evaluate_friction
  rw [if_pos (by rw [Axf_inp0]; norm_num), if_pos (by rw [Axr_inp0]; norm_num),
    if_neg (by norm_num [inp0]), if_neg (by norm_num [inp0]),
    if_neg (by norm_num [inp0]), if_pos (by norm_num [inp0])]
  simp only [frictionTail, longF_zero_inp0, latF_zero_inp0, newWOf]
  norm_num [inp0]

lemma FzOf_inpC2 : FzOf inpC2 = -(15 / 2) := by
  norm_num [FzOf, inpC2, Fz3, a2Of, lOf, a1Of, AxfOf, wheelRelPos, wheelsSquare, hCG]

/-! ## Claims about the friction model -/

/-- C1: the claim states that `miS(x, x0)` returns `x` for `|x| ≤ x0` and
`x0 · sign(x)` for `|x| > x0`.  Evaluating the source formula at the
failing inputs: `miS (-2) 1 = 1` (the claim requires `-1`: the sign of
`x` is dropped) and `miS 1 1 = 0` (the claim requires `1`: both strict
Heaviside comparisons fail at `|x| = x0`). -/
theorem miS_not_signed_saturation : miS (-2) 1 = 1 ∧ miS 1 1 = 0 := by
  constructor <;> norm_num [miS, miH]

/-- C2 counterexample: a concrete input on which the wheel-3
load-transfer formula yields a negative vertical load, and the value
used downstream as `max_friction` is that same negative number, not
zero. -/
theorem maxFriction_negative_not_clamped_cex :
    FzOf inpC2 < 0 ∧ max_friction (FzOf inpC2) ≠ 0 := by
  rw [FzOf_inpC2]
  norm_num [max_friction]

/-- C2 (amended): whenever the load-transfer formula yields a negative
value, the value used downstream as `max_friction` is exactly that
negative value — no non-negativity clamp exists in
`evaluate_friction`. -/
theorem maxFriction_passes_negative_load (inp : FInput) (h : FzOf inp < 0) :
    max_friction (FzOf inp) = FzOf inp ∧ max_friction (FzOf inp) < 0 :=
  ⟨rfl, h⟩

/-- C2 witness: the amended claim applied at the concrete braking
input. -/
theorem maxFriction_passes_negative_load_witness :
    FzOf inpC2 < 0 ∧
      (max_friction (FzOf inpC2) = FzOf inpC2 ∧ max_friction (FzOf inpC2) < 0) := by
  have h : FzOf inpC2 < 0 := by rw [FzOf_inpC2]; norm_num
  exact ⟨h, maxFriction_passes_negative_load inpC2 h⟩

/-- C6: for any input with valid axle geometry and a wheel index outside
0..3 (equivalently, at least 4), `evaluate_friction` fails with the
invalid-wheel-index error instead of returning a force. -/
theorem evaluate_friction_invalid_wheel_index (P : Params) (inp : FInput)
    (hf : 0 < AxfOf inp) (hr : 0 < AxrOf inp) (hi : 3 < inp.wheelIndex) :
    evaluate_friction P inp = .error .invalidWheelIndex := by
  unfold evaluate_friction
  rw [if_pos hf, if_pos hr, if_neg (by omega), if_neg (by omega),
    if_neg (by omega), if_neg (by omega)]

/-- C6 witness: wheel index 4 on the concrete four-wheel vehicle. -/
theorem evaluate_friction_invalid_wheel_index_witness :
    0 < AxfOf inp4 ∧ 0 < AxrOf inp4 ∧ 3 < inp4.wheelIndex ∧
      evaluate_friction defaultParams inp4 = .error .invalidWheelIndex := by
  have hf : 0 < AxfOf inp4 := by norm_num [AxfOf, wheelRelPos, inp4, wheelsSquare]
  have hr : 0 < AxrOf inp4 := by norm_num [AxrOf, wheelRelPos, inp4, wheelsSquare]
  have hi : 3 < inp4.wheelIndex := by norm_num [inp4]
  exact ⟨hf, hr, hi, evaluate_friction_invalid_wheel_index defaultParams inp4 hf hr hi⟩

/-- C8: whenever the wheel surface speed `R·w` equals the contact-point
longitudinal velocity `vxT`, the longitudinal slip ratio used by the
friction stages is exactly 0 (the 0/0 produced by the source expression
is clamped to zero by the `isnan` check). -/
theorem slip_zero_at_matched_speed (inp : FInput)
    (h : inp.diameter / 2 * inp.wOld = vxTOf inp) : slipOf inp = 0 := by
  unfold slipOf slipRatio
  rw [h]
  simp [miH]

/-- C8 witness: the stationary input, where both speeds are 0. -/
theorem slip_zero_at_matched_speed_witness :
    inp0.diameter / 2 * inp0.wOld = vxTOf inp0 ∧ slipOf inp0 = 0 := by
  have h : inp0.diameter / 2 * inp0.wOld = vxTOf inp0 := by
    rw [vxT_inp0]
    norm_num [inp0]
  exact ⟨h, slip_zero_at_matched_speed inp0 h⟩

/-- C7: for a wheel with positive inertia whose computed longitudinal
friction force is zero, a successful `evaluate_friction` call updates
the wheel's angular velocity (the second component of the result,
modelling the `setW` side effect) to exactly
`wOld + (motorTorque / Iyy) * dt`, one explicit Euler step. -/
theorem evaluate_friction_spin_euler_step (P : Params) (inp : FInput)
    (r : (ℝ × ℝ) × ℝ) (_hI : 0 < inp.Iyy)
    (hLF : wheelLongFriction P inp (FzOf inp) = 0)
    (hEval : evaluate_friction P inp = .ok r) :
    r.2 = inp.wOld + inp.motorTorque / inp.Iyy * inp.dt := by
  unfold evaluate_friction at hEval
  split_ifs at hEval with h1 h2 h3 h4 h5 h6
  · simp only [Except.ok.injEq] at hEval
    subst hEval
    have hz : wheelLongFriction P inp (Fz3 inp) = 0 := by
      rw [show Fz3 inp = FzOf inp by simp [FzOf, h3]]
      exact hLF
    simp only [frictionTail, newWOf, hz]
    ring
  · simp only [Except.ok.injEq] at hEval
    subst hEval
    have hz : wheelLongFriction P inp (Fz2 inp) = 0 := by
      rw [show Fz2 inp = FzOf inp by simp [FzOf, h3, h4]]
      exact hLF
    simp only [frictionTail, newWOf, hz]
    ring
  · simp only [Except.ok.injEq] at hEval
    subst hEval
    have hz : wheelLongFriction P inp (Fz1 inp) = 0 := by
      rw [show Fz1 inp = FzOf inp by simp [FzOf, h3, h4, h5]]
      exact hLF
    simp only [frictionTail, newWOf, hz]
    ring
  · simp only [Except.ok.injEq] at hEval
    subst hEval
    have hz : wheelLongFriction P inp (Fz0 inp) = 0 := by
      rw [show Fz0 inp = FzOf inp by simp [FzOf, h3, h4, h5, h6]]
      exact hLF
    simp only [frictionTail, newWOf, hz]
    ring

/-- C7 witness: the stationary wheel-0 input with torque 2, inertia 1
and `dt = 1/2`: the updated angular velocity is `0 + 2/1 * 1/2 = 1`. -/
theorem evaluate_friction_spin_euler_step_witness :
    evaluate_friction defaultParams inp0 = .ok ((0, 0), 1) ∧ 0 < inp0.Iyy ∧
      (((0 : ℝ), (0 : ℝ)), (1 : ℝ)).2 =
        inp0.wOld + inp0.motorTorque / inp0.Iyy * inp0.dt := by
  refine ⟨eval_inp0, by norm_num [inp0], ?_⟩
  exact evaluate_friction_spin_euler_step defaultParams inp0 ((0, 0), 1)
    (by norm_num [inp0])
    (by rw [show FzOf inp0 = Fz0 inp0 by norm_num [FzOf, inp0]]; exact longF_zero_inp0 _)
    eval_inp0

/-! ## Grid lemmas -/

lemma cellAt_setCell (g : Grid) (x y : ℤ) (c : CellState) (p q : ℤ) :
    cellAt (setCell g x y c) p q = cellAt g p q ∨
      cellAt (setCell g x y c) p q = some c := by
  unfold setCell
  split_ifs with hw
  · unfold cellAt
    dsimp only
    split_ifs with hr
    · rcases eq_or_ne (y.toNat * g.nx + x.toNat) (q.toNat * g.nx + p.toNat) with hij | hij
      · rw [← hij, List.getElem?_set_self']
        cases hv : g.cells[y.toNat * g.nx + x.toNat]? with
        | none => left; rfl
        | some v => right; rfl
    
      · rw [List.getElem?_set_ne hij]
        exact Or.inl rfl
    · exact Or.inl rfl
  · exact Or.inl rfl

lemma cellAt_setCell_self (g : Grid) (x y : ℤ) (c : CellState)
    (h : (cellAt g x y).isSome) : cellAt (setCell g x y c) x y = some c := by
  unfold cellAt at h
  by_cases hw : 0 ≤ x ∧ x < (g.nx : ℤ) ∧ 0 ≤ y ∧ y < (g.ny : ℤ)
  · rw [if_pos hw] at h
    unfold setCell
    rw [if_pos hw]
    unfold cellAt
    dsimp only
    rw [if_pos hw, List.getElem?_set_self']
    obtain ⟨v, hv⟩ := Option.isSome_iff_exists.mp h
    rw [hv]
    rfl
  · rw [if_neg hw] at h
    simp at h

lemma inside_iff (g : Grid) (x y : ℤ) :
    inside g x y = true ↔ cellAt g x y = some CellState.undefined := by
  unfold inside
  cases h : cellAt g x y with
  | none => simp
  | some c => cases c <;> simp

lemma fillLeft_pres (R : Grid → Prop)
    (hR : ∀ (g : Grid) (x y : ℤ), R g → R (setCell g x y CellState.free)) :
    ∀ (fuel : ℕ) (g : Grid) (lx y : ℤ), R g → R (fillLeft fuel g lx y).1 := by
  intro fuel
  induction fuel with
  | zero =>
    intro g lx y h
    exact h
  | succ f ih =>
    intro g lx y h
    simp only [fillLeft]
    by_cases hc : inside g (lx - 1) y = true
    · rw [if_pos hc]
      exact ih _ _ _ (hR _ _ _ h)
    · rw [if_neg hc]
      exact h

lemma fillRight_pres (R : Grid → Prop)
    (hR : ∀ (g : Grid) (x y : ℤ), R g → R (setCell g x y CellState.free)) :
    ∀ (fuel : ℕ) (g : Grid) (x y : ℤ), R g → R (fillRight fuel g x y).1 := by
  intro fuel
  induction fuel with
  | zero =>
    intro g x y h
    exact h
  | succ f ih =>
    intro g x y h
    simp only [fillRight]
    by_cases hc : inside g x y = true
    · rw [if_pos hc]
      exact ih _ _ _ (hR _ _ _ h)
    · rw [if_neg hc]
      exact h

lemma floodLoop_pres (R : Grid → Prop)
    (hR : ∀ (g : Grid) (x y : ℤ), R g → R (setCell g x y CellState.free)) :
    ∀ (fuel : ℕ) (q : List (ℤ × ℤ)) (g : Grid), R g → R (floodLoop fuel g q) := by
  intro fuel
  induction fuel with
  | zero =>
    intro q g h
    exact h
  | succ f ih =>
    intro q g h
    cases q with
    | nil => exact h
    | cons c rest =>
      obtain ⟨x, y⟩ := c
      simp only [floodLoop]
      exact ih _ _ (fillRight_pres R hR _ _ _ _ (fillLeft_pres R hR _ _ _ _ h))

lemma seedFree_pres :
    ∀ (g : Grid) (x y : ℤ), cellAt g 0 0 = some CellState.free →
      cellAt (setCell g x y CellState.free) 0 0 = some CellState.free := by
  intro g x y h
  rcases cellAt_setCell g x y CellState.free 0 0 with h1 | h1
  · rw [h1]
    exact h
  · exact h1

lemma fillLeft_seed_noop (g : Grid) : fillLeft (g.nx + 2) g 0 0 = (g, 0) := by
  obtain ⟨m, hm⟩ : ∃ m, g.nx + 2 = m + 1 := ⟨g.nx + 1, by omega⟩
  rw [hm]
  have hins : inside g (0 - 1) 0 = false := rfl
  simp only [fillLeft, hins]
  rfl

lemma floodFill_seed_free (g : Grid) (h : inside g 0 0 = true) :
    cellAt (floodFill g) 0 0 = some CellState.free := by
  unfold floodFill
  rw [if_pos h]
  obtain ⟨f, hf⟩ : ∃ f, 4 * g.nx * g.ny + 4 = f + 1 := ⟨4 * g.nx * g.ny + 3, by omega⟩
  rw [hf]
  simp only [floodLoop, fillLeft_seed_noop]
  apply floodLoop_pres _ seedFree_pres
  obtain ⟨m, hm⟩ : ∃ m, g.nx + 2 = m + 1 := ⟨g.nx + 1, by omega⟩
  rw [hm]
  simp only [fillRight]
  rw [if_pos h]
  apply fillRight_pres _ seedFree_pres
  apply cellAt_setCell_self
  rw [(inside_iff g 0 0).mp h]
  rfl

/-! ## Claims about the flood fill and contour computation -/

/-- C9: the flood fill is idempotent — running
`internalGridFloodFill` a second time on any already-filled grid changes
no cell.  After a first run that entered the fill, the corner seed cell
is `Free`, so the second run's seed test fails and it returns the grid
untouched; a first run that did not enter left the grid unchanged. -/
theorem floodFill_idempotent (g : Grid) : floodFill (floodFill g) = floodFill g := by
  have noop : ∀ g' : Grid, inside g' 0 0 = false → floodFill g' = g' := by
    intro g' hg'
    unfold floodFill
    rw [if_neg (by simp [hg'])]
  by_cases h : inside g 0 0 = true
  · have h2 : inside (floodFill g) 0 0 = false := by
      unfold inside
      rw [floodFill_seed_free g h]
    exact noop _ h2
  · have h0 : floodFill g = g := by
      unfold floodFill
      rw [if_neg h]
    rw [h0]
    exact h0

lemma floodFill_noOcc (g : Grid)
    (h : ∀ p q : ℤ, cellAt g p q ≠ some CellState.occupied) :
    ∀ p q : ℤ, cellAt (floodFill g) p q ≠ some CellState.occupied := by
  unfold floodFill
  split_ifs with hc
  · exact floodLoop_pres
      (fun g' => ∀ p q : ℤ, cellAt g' p q ≠ some CellState.occupied)
      (fun g' x y hg p q => by
        rcases cellAt_setCell g' x y CellState.free p q with h1 | h1
        · rw [h1]
          exact hg p q
        · rw [h1]
          simp)
      _ _ _ h
  · exact h

lemma firstOccGo_noOcc (g : Grid)
    (h : ∀ p q : ℤ, cellAt g p q ≠ some CellState.occupied) :
    ∀ cx cy : ℕ, firstOccGo g cx cy = .error .emptyShape := by
  have H : ∀ (n cx cy : ℕ), (g.ny - cy) * (g.nx + 1) + (g.nx - cx) ≤ n →
      firstOccGo g cx cy = .error .emptyShape := by
    intro n
    induction n with
    | zero =>
      intro cx cy hm
      have h0 : (g.ny - cy) * (g.nx + 1) = 0 ∧ g.nx - cx = 0 := by
        generalize (g.ny - cy) * (g.nx + 1) = k at hm
        omega
      have hy : g.ny ≤ cy := by
        rcases Nat.mul_eq_zero.mp h0.1 with h' | h'
        · omega
        · omega
      rw [firstOccGo, if_neg (h cx cy), dif_neg (by omega), dif_neg (by omega)]
    | succ n ih =>
      intro cx cy hm
      rw [firstOccGo, if_neg (h cx cy)]
      by_cases h1 : cx + 1 < g.nx
      · rw [dif_pos h1]
        apply ih
        generalize hk : (g.ny - cy) * (g.nx + 1) = k at hm ⊢
        omega
      · rw [dif_neg h1]
        by_cases h2 : cy + 1 < g.ny
        · rw [dif_pos h2]
          apply ih
          have hsub : g.ny - cy = (g.ny - (cy + 1)) + 1 := by omega
          rw [hsub, Nat.succ_mul] at hm
          generalize hk : (g.ny - (cy + 1)) * (g.nx + 1) = k at hm ⊢
          omega
        · rw [dif_neg h2]
  intro cx cy
  exact H ((g.ny - cy) * (g.nx + 1) + (g.nx - cx)) cx cy le_rfl

/-- C4: an all-unoccupied grid (an empty point set: no build step ever
marked a cell `Occupied`) makes the contour computation fail with the
empty-shape error.  The flood fill never writes `Occupied`, so the
first-occupied scan of `internalGridContour` exhausts the grid and its
`ASSERT_(cy < ny)` fires. -/
theorem computeShape_empty_fails (g : Grid)
    (h : ∀ c ∈ g.cells, c ≠ CellState.occupied) :
    computeShape g = .error .emptyShape := by
  have h1 : ∀ p q : ℤ, cellAt g p q ≠ some CellState.occupied := by
    intro p q hc
    unfold cellAt at hc
    split_ifs at hc with hb
    exact h _ (List.getElem?_mem hc) rfl
  have h2 := floodFill_noOcc g h1
  unfold computeShape internalGridContour firstOccupied
  rw [firstOccGo_noOcc _ h2 0 0]
  rfl

/-- An all-`Undefined` 2x2 grid over the unit square. -/
noncomputable def gU : Grid :=
  ⟨0, 0, 1, 2, 2,
    [CellState.undefined, CellState.undefined, CellState.undefined, CellState.undefined]⟩

/-- C4 witness: the concrete all-`Undefined` grid. -/
theorem computeShape_empty_fails_witness :
    (∀ c ∈ gU.cells, c ≠ CellState.occupied) ∧ computeShape gU = .error .emptyShape := by
  have h : ∀ c ∈ gU.cells, c ≠ CellState.occupied := by decide
  exact ⟨h, computeShape_empty_fails gU h⟩

/-- A 1x1 grid whose (seed) cell is `Occupied`. -/
noncomputable def gOcc : Grid := ⟨0, 0, 1, 1, 1, [CellState.occupied]⟩

/-- A 1x1 grid whose (seed) cell is `Free`. -/
noncomputable def gFree : Grid := ⟨0, 0, 1, 1, 1, [CellState.free]⟩

/-- C5 counterexample: the claim states that the flood fill fails
(reports a programming-invariant violation) whenever the seed corner
cell is not `Undefined` at start.  In the source the fill has no failure
path at all: `if (!Inside(x0, y0)) return;` silently returns with every
cell unchanged, as evaluated here on a grid whose seed cell is
`Occupied`. -/
theorem floodFill_occupied_seed_no_failure_cex :
    cellAt gOcc 0 0 = some CellState.occupied ∧ floodFill gOcc = gOcc := by
  constructor
  · rfl
  · rfl

/-- C5 (amended): whenever the seed corner cell is not `Undefined` when
the fill starts, `internalGridFloodFill` returns immediately and changes
no cell — a silent no-op, not a reported failure. -/
theorem floodFill_nonundefined_seed_noop (g : Grid)
    (h : cellAt g 0 0 ≠ some CellState.undefined) : floodFill g = g := by
  have hf : inside g 0 0 = false := by
    unfold inside
    cases hc : cellAt g 0 0 with
    | none => rfl
    | some c =>
      cases c
      · exact absurd hc h
      · rfl
      · rfl
      · rfl
  unfold floodFill
  rw [if_neg (by simp [hf])]

/-- C5 witness: the amended claim applied to a 1x1 grid whose seed cell
is `Free`. -/
theorem floodFill_nonundefined_seed_noop_witness :
    cellAt gFree 0 0 ≠ some CellState.undefined ∧ floodFill gFree = gFree := by
  have h : cellAt gFree 0 0 ≠ some CellState.undefined := by decide
  exact ⟨h, floodFill_nonundefined_seed_noop gFree h⟩

/-! ## Claims about merging and rasterization -/

/-- A shape with an empty contour. -/
noncomputable def shpEmpty : Shape := ⟨[], 0, 0⟩

/-- A shape with a one-point contour. -/
noncomputable def shpUnit : Shape := ⟨[(1, 1)], 0, 1⟩

/-- C3 counterexample: the claim states that `mergeWith` accumulates the
boundary points of both shapes and recomputes a convex hull over their
union, failing when either input has an empty contour.  In the source
the accumulation and hull body is compiled out and only the argument's
contour is checked: merging a non-empty shape into a receiver whose
contour is empty succeeds and leaves the receiver's contour empty. -/
theorem mergeWith_skips_receiver_and_hull_cex :
    mergeWith shpEmpty shpUnit = .ok shpEmpty ∧ shpEmpty.contour = [] := by
  constructor
  · rfl
  · rfl

/-- C3 (amended): `mergeWith` checks only that the argument shape has a
non-empty contour, failing with `InvalidShapeError` otherwise; on
success it returns with the receiver unchanged (the point accumulation
and convex-hull recomputation are compiled out in the source). -/
theorem mergeWith_checks_only_argument (a b : Shape) :
    (b.contour = [] → mergeWith a b = .error .invalidShape) ∧
      (b.contour ≠ [] → mergeWith a b = .ok a) := by
  constructor
  · intro h
    unfold mergeWith
    rw [h]
    rfl
  · intro h
    unfold mergeWith
    rw [if_neg (by simp [List.isEmpty_iff, h])]

/-- C3 witness: the amended claim applied to the empty receiver and the
one-point argument. -/
theorem mergeWith_checks_only_argument_witness :
    shpUnit.contour ≠ [] ∧ mergeWith shpEmpty shpUnit = .ok shpEmpty := by
  have h : shpUnit.contour ≠ [] := by simp [shpUnit]
  exact ⟨h, (mergeWith_checks_only_argument shpEmpty shpUnit).2 h⟩

lemma foldl_triSample_id (st : BuildState) :
    ∀ l : List V3, (∀ p ∈ l, cellByPos st.grid p.x p.y = none) →
      l.foldl triSample st = st := by
  intro l
  induction l with
  | nil => intro _; rfl
  | cons p tl ih =>
    intro h
    have h1 : triSample st p = st := by
      unfold triSample
      rw [h p (List.mem_cons_self p tl)]
    rw [List.foldl_cons, h1]
    exact ih fun q hq => h q (List.mem_cons_of_mem p hq)

/-- C10: out-of-bounds rasterization input is handled asymmetrically:
`buildAddPoint` fails (its `ASSERT_(c)` fires) for every point whose
`(x, y)` lies outside the padded grid, while the triangle edge walk of
`buildAddTriangle` silently skips every sample outside the grid (leaving
the state — including the z-extent — untouched), still marking the cell
and widening `[zMin, zMax]` for samples that land inside; a triangle
whose samples all fall outside leaves the state unchanged and never
fails. -/
theorem build_out_of_bounds_asymmetry (st : BuildState) (p q : V3)
    (c : ℕ × ℕ) (t : Tri)
    (hp : cellByPos st.grid p.x p.y = none)
    (hq : cellByPos st.grid q.x q.y = some c)
    (ht : ∀ r ∈ triangleSamples st.grid t, cellByPos st.grid r.x r.y = none) :
    buildAddPoint st p = .error .assertionFailed ∧
      triSample st p = st ∧
      triSample st q =
        ⟨setCell st.grid (c.1 : ℤ) (c.2 : ℤ) CellState.occupied,
          min st.zMin q.z, max st.zMax q.z⟩ ∧
      buildAddTriangle st t = st := by
  refine ⟨?_, ?_, ?_, ?_⟩
  · unfold buildAddPoint
    rw [hp]
  · unfold triSample
    rw [hp]
  · unfold triSample
    rw [hq]
  · unfold buildAddTriangle
    exact foldl_triSample_id st _ ht

/-! ## Concrete rasterization inputs for the C10 witness -/

/-- A 2x2 grid with unit resolution over `[0,2) x [0,2)`. -/
noncomputable def gW : Grid :=
  ⟨0, 0, 1, 2, 2,
    [CellState.undefined, CellState.undefined, CellState.undefined, CellState.undefined]⟩

/-- Build state over `gW` with zero z-extent accumulators. -/
noncomputable def stW : BuildState := ⟨gW, 0, 0⟩

/-- A point left of the grid. -/
noncomputable def pW : V3 := ⟨-4, 0, 5⟩

/-- A point inside cell (0, 0). -/
noncomputable def qW : V3 := ⟨0, 0, 7⟩

/-- A degenerate triangle entirely left of the grid: every edge sample
falls outside. -/
noncomputable def tW : Tri := ⟨⟨-4, 0, 0⟩, ⟨-5, 0, 0⟩, ⟨-4, 0, 0⟩⟩

lemma trunc_cast (n : ℤ) : truncToInt ((n : ℤ) : ℝ) = n := by
  unfold truncToInt
  split_ifs
  · exact Int.floor_intCast n
  · exact Int.ceil_intCast n

lemma cbp_gW_of_int (n m : ℤ) :
    cellByPos gW ((n : ℤ) : ℝ) ((m : ℤ) : ℝ) =
      if 0 ≤ n ∧ n < 2 ∧ 0 ≤ m ∧ m < 2 then some (n.toNat, m.toNat) else none := by
  unfold cellByPos gW
  dsimp only
  rw [show ((n : ℤ) : ℝ) - 0 = ((n : ℤ) : ℝ) by ring]
  rw [show ((m : ℤ) : ℝ) - 0 = ((m : ℤ) : ℝ) by ring]
  rw [show ((n : ℤ) : ℝ) / 1 = ((n : ℤ) : ℝ) by ring]
  rw [show ((m : ℤ) : ℝ) / 1 = ((m : ℤ) : ℝ) by ring]
  rw [trunc_cast, trunc_cast]
  norm_num

lemma cbp_gW_m4 : cellByPos gW (-4 : ℝ) (0 : ℝ) = none := by
  rw [show (-4 : ℝ) = ((-4 : ℤ) : ℝ) by norm_num,
    show (0 : ℝ) = ((0 : ℤ) : ℝ) by norm_num, cbp_gW_of_int]
  norm_num

lemma cbp_gW_m5 : cellByPos gW (-5 : ℝ) (0 : ℝ) = none := by
  rw [show (-5 : ℝ) = ((-5 : ℤ) : ℝ) by norm_num,
    show (0 : ℝ) = ((0 : ℤ) : ℝ) by norm_num, cbp_gW_of_int]
  norm_num

lemma cbp_gW_00 : cellByPos gW (0 : ℝ) (0 : ℝ) = some (0, 0) := by
  rw [show (0 : ℝ) = ((0 : ℤ) : ℝ) by norm_num, cbp_gW_of_int]
  norm_num

lemma tW_samples_outside :
    ∀ r ∈ triangleSamples gW tW, cellByPos gW r.x r.y = none := by
  intro r hr
  unfold triangleSamples edgeSamples tW gW at hr
  norm_num [Real.sqrt_one, Real.sqrt_zero, List.range_succ] at hr
  rcases hr with hr | hr
  · rw [hr]
    exact cbp_gW_m4
  · rw [hr]
    exact cbp_gW_m5

/-- C10 witness: on the concrete 2x2 grid, the out-of-grid point makes
`buildAddPoint` fail, the same point as a triangle edge sample is
silently skipped, the in-grid point marks its cell and widens the
z-extent, and the all-outside triangle leaves the state unchanged. -/
theorem build_out_of_bounds_asymmetry_witness :
    cellByPos stW.grid pW.x pW.y = none ∧
      cellByPos stW.grid qW.x qW.y = some (0, 0) ∧
      (∀ r ∈ triangleSamples stW.grid tW, cellByPos stW.grid r.x r.y = none) ∧
      (buildAddPoint stW pW = .error .assertionFailed ∧
        triSample stW pW = stW ∧
        triSample stW qW =
          ⟨setCell stW.grid ((((0, 0) : ℕ × ℕ)).1 : ℤ) ((((0, 0) : ℕ × ℕ)).2 : ℤ)
              CellState.occupied,
            min stW.zMin qW.z, max stW.zMax qW.z⟩ ∧
        buildAddTriangle stW tW = stW) := by
  have hp : cellByPos stW.grid pW.x pW.y = none := cbp_gW_m4
  have hq : cellByPos stW.grid qW.x qW.y = some (0, 0) := cbp_gW_00
  have ht : ∀ r ∈ triangleSamples stW.grid tW, cellByPos stW.grid r.x r.y = none :=
    tW_samples_outside
  exact ⟨hp, hq, ht, build_out_of_bounds_asymmetry stW pW qW (0, 0) tW hp hq ht⟩
